import Mathlib

/-!
Shallow embedding of `src/rc_thermal_scheduler.c` (the SAFE version of the
RC-based thermal-aware scheduler controller), and verification of the
specification's claims about it.

Modelling conventions:
- C `double` values are modelled as `ℚ` (exact arithmetic; the program's
  formulas are plain field arithmetic).
- C `int` and `time_t` are modelled as `ℤ`; the program never overflows the
  ranges the claims are about.
- Device I/O is modelled by an explicit `Device` record: the current
  max-frequency file content, plus flags saying whether opening the file for
  reading resp. writing succeeds (a failed `fopen` makes `read_max_frequency`
  return `-1` and makes `write_max_frequency` a silent no-op, as in the C).
- The sensor reads `read_temperature` / `read_frequency` are inputs of a tick
  (negative value = failure sentinel, as in the C).
- The controller's global state (`mitigation_active`, `last_action_time`,
  `original_max_freq`) is an explicit record threaded through the functions,
  and `time(NULL)` is passed in as the parameter `now`.
-/

namespace RCThermal

/-! ### Constants (the `#define`s of the source, lines 36-56) -/

def R_THERMAL : ℚ := 1
def C_THERMAL : ℚ := 10
def T_AMBIENT : ℚ := 30
def DT : ℚ := 1
def T_HIGH : ℚ := 75
def T_LOW : ℚ := 70
def T_CRITICAL : ℚ := 85
def ALPHA : ℚ := 5
def ACTION_COOLDOWN : ℤ := 5

/-! ### Controller state (the global variables, lines 61-63) -/

structure CtrlState where
  mitigation_active : Bool
  last_action_time : ℤ
  original_max_freq : ℤ
deriving DecidableEq, Repr

/-- Initial values of the globals: `mitigation_active = 0`,
`last_action_time = 0`, `original_max_freq = -1`. -/
def initState : CtrlState := ⟨false, 0, -1⟩

/-! ### Device (the scaling_max_freq file and whether opening it succeeds) -/

structure Device where
  maxFreq : ℤ
  readMaxOk : Bool
  writeOk : Bool
deriving DecidableEq, Repr

/-- `read_max_frequency` (lines 93-103): returns the file content, or `-1`
when the file cannot be opened. -/
def read_max_frequency (d : Device) : ℤ :=
  if d.readMaxOk then d.maxFreq else -1

/-- `write_max_frequency` (lines 105-112): writes `freq` to the file;
when the file cannot be opened it silently does nothing (`void` return,
no error reported to the caller). -/
def write_max_frequency (d : Device) (freq : ℤ) : Device :=
  if d.writeOk then { d with maxFreq := freq } else d

/-- `estimate_utilization` (lines 115-118): fixed placeholder `0.7`. -/
def estimate_utilization : ℚ := 7/10

/-- The C cast `(int)` applied to a double: truncation toward zero.
On `ℚ` this is the T-division of the numerator by the denominator. -/
def cIntCast (q : ℚ) : ℤ := q.num.tdiv (q.den : ℤ)

/-! ### RC thermal model -/

/-- `predict_temperature` (lines 123-132). -/
def predict_temperature (T_curr power Tamb R C dt : ℚ) : ℚ :=
  T_curr + (dt / C) * (power - (T_curr - Tamb) / R)

/-- The power estimate of the control loop, line 195:
`double power = ALPHA * util * freq;` (named `estimate_power` in the spec). -/
def estimate_power (util freq : ℚ) : ℚ := ALPHA * util * freq

/-! ### Mitigation logic -/

/-- `can_act` (lines 137-141): `difftime(now, last_action_time) >= ACTION_COOLDOWN`. -/
def can_act (s : CtrlState) (now : ℤ) : Bool :=
  decide (ACTION_COOLDOWN ≤ now - s.last_action_time)

/-- `enable_mitigation` (lines 143-159), with `time(NULL)` passed in as `now`.
Returns the updated controller state and device. Note that the source first
assigns the read result to the global `original_max_freq` and only then tests
it, and that it never observes whether `write_max_frequency` succeeded. -/
def enable_mitigation (s : CtrlState) (d : Device) (now : ℤ) : CtrlState × Device :=
  if s.mitigation_active || !(can_act s now) then (s, d)
  else
    let s1 := { s with original_max_freq := read_max_frequency d }
    if s1.original_max_freq ≤ 0 then (s1, d)
    else
      let reduced_freq : ℤ := cIntCast ((s1.original_max_freq : ℚ) * (7/10))
      ({ s1 with mitigation_active := true, last_action_time := now },
       write_max_frequency d reduced_freq)

/-- `disable_mitigation` (lines 161-173), with `time(NULL)` passed in as `now`. -/
def disable_mitigation (s : CtrlState) (d : Device) (now : ℤ) : CtrlState × Device :=
  if !s.mitigation_active || !(can_act s now) then (s, d)
  else
    let d1 := if 0 < s.original_max_freq then write_max_frequency d s.original_max_freq else d
    ({ s with mitigation_active := false, last_action_time := now }, d1)

/-! ### Control loop -/

/-- The hysteresis decision of one tick (lines 209-219): applied to the
predicted temperature. -/
def hysteresis_step (s : CtrlState) (d : Device) (now : ℤ) (T_pred : ℚ) :
    CtrlState × Device :=
  if T_HIGH < T_pred then enable_mitigation s d now
  else if T_pred < T_LOW then disable_mitigation s d now
  else (s, d)

/-- One iteration of the `while (1)` loop in `main` (lines 183-222), with the
sensor read results `T_curr` and `freq` and the clock value `now` as inputs.
On a sensor failure sentinel the loop calls `disable_mitigation` and skips
prediction; otherwise it computes power and predicted temperature and runs
the hysteresis decision. -/
def tick (s : CtrlState) (d : Device) (now : ℤ) (T_curr freq : ℚ) :
    CtrlState × Device :=
  if T_curr < 0 ∨ freq < 0 then
    disable_mitigation s d now
  else
    let power := estimate_power estimate_utilization freq
    let T_pred := predict_temperature T_curr power T_AMBIENT R_THERMAL C_THERMAL DT
    hysteresis_step s d now T_pred

/-- The state-machine invariant of the spec, §3: `active == true` implies
`original_max_frequency` holds a positive (valid previously-read) value. -/
def StateInv (s : CtrlState) : Prop :=
  s.mitigation_active = true → 0 < s.original_max_freq

instance (s : CtrlState) : Decidable (StateInv s) := by
  unfold StateInv; infer_instance

/-! ### Helper lemmas -/

theorem cIntCast_eq_floor (q : ℚ) (hq : 0 ≤ q) : cIntCast q = ⌊q⌋ := by
  rw [cIntCast, Rat.floor_def, Int.tdiv_eq_ediv (Rat.num_nonneg.mpr hq) (by positivity)]

theorem can_act_true {s : CtrlState} {now : ℤ}
    (h : ACTION_COOLDOWN ≤ now - s.last_action_time) : can_act s now = true :=
  decide_eq_true h

theorem can_act_false {s : CtrlState} {now : ℤ}
    (h : now - s.last_action_time < ACTION_COOLDOWN) : can_act s now = false :=
  decide_eq_false (not_le.mpr h)

/-- When all of `enable_mitigation`'s preconditions hold, the whole effect
fires: the state records the captured frequency, and the reduced frequency
is handed to `write_max_frequency`. -/
theorem enable_mitigation_eq {s : CtrlState} {d : Device} {now : ℤ}
    (hact : s.mitigation_active = false)
    (hca : ACTION_COOLDOWN ≤ now - s.last_action_time)
    (hread : d.readMaxOk = true)
    (hpos : 0 < d.maxFreq) :
    enable_mitigation s d now =
      (⟨true, now, d.maxFreq⟩,
       write_max_frequency d (cIntCast ((d.maxFreq : ℚ) * (7/10)))) := by
  have hr : read_max_frequency d = d.maxFreq := by simp [read_max_frequency, hread]
  simp [enable_mitigation, hact, can_act_true hca, hr, not_le.mpr hpos]

/-- When `disable_mitigation`'s preconditions hold, the whole effect fires. -/
theorem disable_mitigation_eq {s : CtrlState} {d : Device} {now : ℤ}
    (hact : s.mitigation_active = true)
    (hca : ACTION_COOLDOWN ≤ now - s.last_action_time) :
    disable_mitigation s d now =
      (⟨false, now, s.original_max_freq⟩,
       if 0 < s.original_max_freq then write_max_frequency d s.original_max_freq else d) := by
  simp [disable_mitigation, hact, can_act_true hca]

theorem disable_mitigation_noop_inactive {s : CtrlState} {d : Device} {now : ℤ}
    (hact : s.mitigation_active = false) :
    disable_mitigation s d now = (s, d) := by
  simp [disable_mitigation, hact]

theorem enable_mitigation_noop_active {s : CtrlState} {d : Device} {now : ℤ}
    (hact : s.mitigation_active = true) :
    enable_mitigation s d now = (s, d) := by
  simp [enable_mitigation, hact]

theorem StateInv_enable (s : CtrlState) (d : Device) (now : ℤ) (hs : StateInv s) :
    StateInv (enable_mitigation s d now).1 := by
  by_cases hact : s.mitigation_active = true
  · rw [enable_mitigation_noop_active hact]; exact hs
  · have hact' : s.mitigation_active = false := by simpa using hact
    by_cases hca : can_act s now = true
    · by_cases hle : read_max_frequency d ≤ 0
      · intro h
        simp [enable_mitigation, hact', hca, hle] at h
      · intro _
        have hlt : 0 < read_max_frequency d := by omega
        simpa [enable_mitigation, hact', hca, hle] using hlt
    · have hca' : can_act s now = false := by simpa using hca
      intro h
      simp [enable_mitigation, hca'] at h
      exact absurd h hact

theorem StateInv_disable (s : CtrlState) (d : Device) (now : ℤ) (hs : StateInv s) :
    StateInv (disable_mitigation s d now).1 := by
  by_cases hact : s.mitigation_active = true
  · by_cases hca : can_act s now = true
    · intro h
      simp [disable_mitigation, hact, hca] at h
    · have hca' : can_act s now = false := by simpa using hca
      intro h
      simp [disable_mitigation, hca'] at h ⊢
      exact hs h
  · rw [disable_mitigation_noop_inactive (by simpa using hact)]
    exact hs

theorem StateInv_tick (s : CtrlState) (d : Device) (now : ℤ) (T f : ℚ)
    (hs : StateInv s) : StateInv (tick s d now T f).1 := by
  simp only [tick, hysteresis_step]
  split_ifs with h1 h2 h3
  · exact StateInv_disable s d now hs
  · exact StateInv_enable s d now hs
  · exact StateInv_disable s d now hs
  · exact hs

/-! ### The claims -/

/-- Claim C1. The claim says: if `write_max_frequency` fails during a call to
`enable_mitigation` whose other preconditions hold, then afterwards
`mitigation_active` is still `0` and `original_max_freq` is still unset.
The code does the opposite: `write_max_frequency` returns `void` and swallows
the failed `fopen`, and `enable_mitigation` records the transition anyway.
Evaluated at a concrete failing input (fresh state, `now = 5`, device max
frequency `1000` readable, write failing): the state afterwards is active
with `original_max_freq = 1000` and `last_action_time = 5`, while the device
was never written (its max frequency is still `1000`, not `700`). -/
theorem enable_mitigation_partial_state_on_write_failure :
    (enable_mitigation initState ⟨1000, true, false⟩ 5).1 = ⟨true, 5, 1000⟩ ∧
    (enable_mitigation initState ⟨1000, true, false⟩ 5).2 = ⟨1000, true, false⟩ := by
  constructor <;>
    norm_num [enable_mitigation, can_act, read_max_frequency, write_max_frequency,
      initState, ACTION_COOLDOWN]

/-- Claim C2, counterexample. The claim says every tick in which a sensor read
returns the negative failure sentinel while mitigation is active forces the
mitigation state to Inactive. At the concrete input: state active with
`last_action_time = 10`, tick at `now = 12` (cooldown of 5 s not elapsed),
temperature read failed (`-1`): the tick leaves the state fully unchanged —
still active, the cap still in place — because `disable_mitigation` is a
no-op during the cooldown window. -/
theorem sensor_fail_tick_keeps_cap_within_cooldown :
    (tick ⟨true, 10, 800⟩ ⟨560, true, true⟩ 12 (-1) 2).1 = ⟨true, 10, 800⟩ := by
  norm_num [tick, disable_mitigation, can_act, ACTION_COOLDOWN]

/-- Claim C2, amended. A tick in which `read_temperature` or `read_frequency`
returns a negative failure sentinel calls `disable_mitigation` (and skips
prediction); this forces the mitigation state to Inactive whenever the
cooldown has elapsed, but inside the cooldown window the call is a no-op and
the cap stays in place until the cooldown passes. -/
theorem sensor_fail_tick_invokes_disable (s : CtrlState) (d : Device) (now : ℤ)
    (T f : ℚ) (hfail : T < 0 ∨ f < 0) :
    tick s d now T f = disable_mitigation s d now ∧
    (ACTION_COOLDOWN ≤ now - s.last_action_time →
      (tick s d now T f).1.mitigation_active = false) := by
  have h1 : tick s d now T f = disable_mitigation s d now := by
    simp only [tick]
    rw [if_pos hfail]
  refine ⟨h1, fun hca => ?_⟩
  rw [h1]
  by_cases hact : s.mitigation_active = true
  · rw [disable_mitigation_eq hact hca]
  · rw [disable_mitigation_noop_inactive (by simpa using hact)]
    simpa using hact

/-- Witness for the amended claim C2: active state, cooldown elapsed,
temperature read failed. -/
theorem sensor_fail_tick_invokes_disable_witness :
    tick ⟨true, 0, 800⟩ ⟨560, true, true⟩ 7 (-1) 2 =
      disable_mitigation ⟨true, 0, 800⟩ ⟨560, true, true⟩ 7 ∧
    (ACTION_COOLDOWN ≤ (7 : ℤ) - (⟨true, 0, 800⟩ : CtrlState).last_action_time →
      (tick ⟨true, 0, 800⟩ ⟨560, true, true⟩ 7 (-1) 2).1.mitigation_active = false) :=
  sensor_fail_tick_invokes_disable _ _ _ _ _ (Or.inl (by decide))

/-- Claim C3: if less than `ACTION_COOLDOWN` has elapsed since
`last_action_time`, then neither `enable_mitigation` nor `disable_mitigation`
changes the controller state (its `mitigation_active`, `original_max_freq`,
`last_action_time` fields) or the device, so two transition requests inside
one cooldown window apply at most one transition. -/
theorem cooldown_blocks_transitions (s : CtrlState) (d : Device) (now : ℤ)
    (h : now - s.last_action_time < ACTION_COOLDOWN) :
    enable_mitigation s d now = (s, d) ∧ disable_mitigation s d now = (s, d) := by
  have hca := can_act_false h
  constructor
  · simp [enable_mitigation, hca]
  · simp [disable_mitigation, hca]

/-- Witness for claim C3: an action 2 seconds after the previous one is
absorbed. -/
theorem cooldown_blocks_transitions_witness :
    enable_mitigation ⟨true, 10, 100⟩ ⟨500, true, true⟩ 12 =
      (⟨true, 10, 100⟩, ⟨500, true, true⟩) ∧
    disable_mitigation ⟨true, 10, 100⟩ ⟨500, true, true⟩ 12 =
      (⟨true, 10, 100⟩, ⟨500, true, true⟩) :=
  cooldown_blocks_transitions _ _ _ (by decide)

/-- Claim C4: starting inactive with a positive readable device max frequency
and functioning writes, `enable_mitigation` followed (after the cooldown) by
`disable_mitigation` leaves the device's max-frequency value equal to its
value before `enable_mitigation` was called. -/
theorem enable_then_disable_restores_max_freq (s : CtrlState) (d : Device) (t1 t2 : ℤ)
    (hact : s.mitigation_active = false)
    (hca1 : ACTION_COOLDOWN ≤ t1 - s.last_action_time)
    (hread : d.readMaxOk = true)
    (hwrite : d.writeOk = true)
    (hpos : 0 < d.maxFreq)
    (hca2 : ACTION_COOLDOWN ≤ t2 - t1) :
    (disable_mitigation (enable_mitigation s d t1).1 (enable_mitigation s d t1).2 t2).2.maxFreq
      = d.maxFreq := by
  rw [enable_mitigation_eq hact hca1 hread hpos]
  rw [disable_mitigation_eq rfl hca2]
  simp [write_max_frequency, hwrite, hpos]

/-- Witness for claim C4: max frequency 1000 is capped at time 5 and restored
at time 10. -/
theorem enable_then_disable_restores_max_freq_witness :
    (disable_mitigation (enable_mitigation initState ⟨1000, true, true⟩ 5).1
        (enable_mitigation initState ⟨1000, true, true⟩ 5).2 10).2.maxFreq = 1000 :=
  enable_then_disable_restores_max_freq _ _ _ _ rfl (by decide) rfl rfl (by decide) (by decide)

/-- Claim C5: `predict_temperature` returns exactly
`T_curr + (dt / C) * (power - (T_curr - Tamb) / R)`, and in particular
`predict_temperature 70 28 30 1 10 1 = 68.8`. -/
theorem predict_temperature_formula :
    (∀ T_curr power Tamb R C dt : ℚ,
        predict_temperature T_curr power Tamb R C dt =
          T_curr + (dt / C) * (power - (T_curr - Tamb) / R)) ∧
    predict_temperature 70 28 30 1 10 1 = 68.8 := by
  refine ⟨fun _ _ _ _ _ _ => rfl, ?_⟩
  norm_num [predict_temperature]

/-- Claim C6: for any controller state and any predicted temperature strictly
between `T_LOW` and `T_HIGH`, the hysteresis decision of a tick performs no
transition — controller state and device are both unchanged. -/
theorem hysteresis_dead_zone_no_transition (s : CtrlState) (d : Device) (now : ℤ)
    (T_pred : ℚ) (hlow : T_LOW < T_pred) (hhigh : T_pred < T_HIGH) :
    hysteresis_step s d now T_pred = (s, d) := by
  simp only [hysteresis_step]
  rw [if_neg (not_lt.mpr hhigh.le), if_neg (not_lt.mpr hlow.le)]

/-- Witness for claim C6: a predicted temperature of 72 (between 70 and 75)
leaves an active controller untouched even with the cooldown elapsed. -/
theorem hysteresis_dead_zone_no_transition_witness :
    hysteresis_step ⟨true, 0, 800⟩ ⟨560, true, true⟩ 9 72 =
      (⟨true, 0, 800⟩, ⟨560, true, true⟩) :=
  hysteresis_dead_zone_no_transition _ _ _ _ (by decide) (by decide)

/-- Claim C7: when `enable_mitigation` runs with its preconditions satisfied
(not active, cooldown elapsed, device max frequency readable and positive,
write functioning), it captures the read value as `original_max_freq`, writes
`⌊original_max_freq * 0.7⌋` as the new device max frequency, sets
`mitigation_active`, and stamps `last_action_time = now`. -/
theorem enable_mitigation_effect (s : CtrlState) (d : Device) (now : ℤ)
    (hact : s.mitigation_active = false)
    (hca : ACTION_COOLDOWN ≤ now - s.last_action_time)
    (hread : d.readMaxOk = true)
    (hpos : 0 < d.maxFreq)
    (hwrite : d.writeOk = true) :
    (enable_mitigation s d now).1.original_max_freq = read_max_frequency d ∧
    (enable_mitigation s d now).2.maxFreq = ⌊(read_max_frequency d : ℚ) * (7/10)⌋ ∧
    (enable_mitigation s d now).1.mitigation_active = true ∧
    (enable_mitigation s d now).1.last_action_time = now := by
  have hr : read_max_frequency d = d.maxFreq := by simp [read_max_frequency, hread]
  rw [enable_mitigation_eq hact hca hread hpos, hr]
  refine ⟨rfl, ?_, rfl, rfl⟩
  simp only [write_max_frequency, hwrite, if_true]
  exact cIntCast_eq_floor _ (mul_nonneg (by exact_mod_cast hpos.le) (by norm_num))

/-- Witness for claim C7: enabling on a fresh state at time 5 with device max
frequency 1000. -/
theorem enable_mitigation_effect_witness :
    (enable_mitigation initState ⟨1000, true, true⟩ 5).1.original_max_freq =
        read_max_frequency ⟨1000, true, true⟩ ∧
    (enable_mitigation initState ⟨1000, true, true⟩ 5).2.maxFreq =
        ⌊(read_max_frequency ⟨1000, true, true⟩ : ℚ) * (7/10)⌋ ∧
    (enable_mitigation initState ⟨1000, true, true⟩ 5).1.mitigation_active = true ∧
    (enable_mitigation initState ⟨1000, true, true⟩ 5).1.last_action_time = 5 :=
  enable_mitigation_effect _ _ _ rfl (by decide) rfl (by decide) rfl

/-- Claim C8: the invariant "`mitigation_active` implies `original_max_freq`
holds a positive value" holds in the initial state and is preserved by
`enable_mitigation`, `disable_mitigation` and every control-loop tick;
moreover, whenever `enable_mitigation` actually switches the state to active,
the recorded `original_max_freq` is exactly the value read from the device at
that moment, and it is positive. -/
theorem mitigation_active_invariant (s : CtrlState) (d : Device) (now : ℤ) (T f : ℚ)
    (hs : StateInv s) :
    StateInv initState ∧
    StateInv (enable_mitigation s d now).1 ∧
    StateInv (disable_mitigation s d now).1 ∧
    StateInv (tick s d now T f).1 ∧
    ((enable_mitigation s d now).1.mitigation_active = true → s.mitigation_active = false →
      (enable_mitigation s d now).1.original_max_freq = read_max_frequency d ∧
      0 < read_max_frequency d) := by
  refine ⟨by decide, StateInv_enable s d now hs, StateInv_disable s d now hs,
    StateInv_tick s d now T f hs, fun hpost hact => ?_⟩
  by_cases hca : can_act s now = true
  · by_cases hle : read_max_frequency d ≤ 0
    · simp [enable_mitigation, hact, hca, hle] at hpost
    · constructor
      · simp [enable_mitigation, hact, hca, hle]
      · omega
  · have hca' : can_act s now = false := by simpa using hca
    simp [enable_mitigation, hca', hact] at hpost

/-- Witness for claim C8: an active state with `original_max_freq = 500`
satisfies the invariant, and all operations preserve it. -/
theorem mitigation_active_invariant_witness :
    StateInv initState ∧
    StateInv (enable_mitigation ⟨true, 0, 500⟩ ⟨1000, true, true⟩ 5).1 ∧
    StateInv (disable_mitigation ⟨true, 0, 500⟩ ⟨1000, true, true⟩ 5).1 ∧
    StateInv (tick ⟨true, 0, 500⟩ ⟨1000, true, true⟩ 5 50 2).1 ∧
    ((enable_mitigation ⟨true, 0, 500⟩ ⟨1000, true, true⟩ 5).1.mitigation_active = true →
      (⟨true, 0, 500⟩ : CtrlState).mitigation_active = false →
      (enable_mitigation ⟨true, 0, 500⟩ ⟨1000, true, true⟩ 5).1.original_max_freq =
        read_max_frequency ⟨1000, true, true⟩ ∧
      0 < read_max_frequency ⟨1000, true, true⟩) :=
  mitigation_active_invariant ⟨true, 0, 500⟩ ⟨1000, true, true⟩ 5 50 2 (by decide)

/-- Claim C9: `predict_temperature` and the power estimate `ALPHA * util * freq`
are deterministic pure functions — two calls with identical inputs give
identical outputs. In the embedding both are functions of their arguments
only: they take neither the controller state nor the device, matching the C
code, which reads and writes no global in either computation. -/
theorem model_determinism (T p a R C dt T2 p2 a2 R2 C2 dt2 u f u2 f2 : ℚ)
    (h1 : T = T2) (h2 : p = p2) (h3 : a = a2) (h4 : R = R2) (h5 : C = C2)
    (h6 : dt = dt2) (h7 : u = u2) (h8 : f = f2) :
    predict_temperature T p a R C dt = predict_temperature T2 p2 a2 R2 C2 dt2 ∧
    estimate_power u f = estimate_power u2 f2 := by
  subst h1; subst h2; subst h3; subst h4; subst h5; subst h6; subst h7; subst h8
  exact ⟨rfl, rfl⟩

/-- Witness for claim C9: two evaluations at the spec's example inputs. -/
theorem model_determinism_witness :
    predict_temperature 70 28 30 1 10 1 = predict_temperature 70 28 30 1 10 1 ∧
    estimate_power (7/10) 2 = estimate_power (7/10) 2 :=
  model_determinism 70 28 30 1 10 1 70 28 30 1 10 1 (7/10) 2 (7/10) 2
    rfl rfl rfl rfl rfl rfl rfl rfl

/-- Claim C10: when `disable_mitigation` applies its transition (active and
cooldown elapsed), the resulting controller state keeps `original_max_freq`
unchanged and modifies only `mitigation_active` (to `false`) and
`last_action_time` (to `now`). -/
theorem disable_mitigation_preserves_original_max_freq (s : CtrlState) (d : Device)
    (now : ℤ)
    (hact : s.mitigation_active = true)
    (hca : ACTION_COOLDOWN ≤ now - s.last_action_time) :
    (disable_mitigation s d now).1 = ⟨false, now, s.original_max_freq⟩ := by
  rw [disable_mitigation_eq hact hca]

/-- Witness for claim C10: disabling at time 6 keeps the captured value 800. -/
theorem disable_mitigation_preserves_original_max_freq_witness :
    (disable_mitigation ⟨true, 0, 800⟩ ⟨560, true, true⟩ 6).1 = ⟨false, 6, 800⟩ :=
  disable_mitigation_preserves_original_max_freq _ _ _ rfl (by decide)

end RCThermal
